import Mathlib

/-!
# Verification of the k8s-ovs node VNID map and watchers

Shallow embedding of `ksdn/vnids_node.go`: the `nodeVNIDMap` table
(`ids : map[string]uint32`, `namespaces : map[uint32]sets.String`), its
accessors, the netns event handler and the service watcher's delta handler.

Go maps are embedded as functions into `Option`; `sets.String` is embedded as
`Finset String` (its `List()` accessor returns the sorted member list).
VNIDs (`uint32`) are embedded as `Nat`; every VNID the code manipulates is a
stored 32-bit value, no arithmetic overflows.  Calls to the external
dataplane primitive `updatePodNetwork` and to the rule programmers
`AddServiceRules`/`DeleteServiceRules` are recorded in traces; their
outcomes are supplied by oracle functions.
-/

namespace Ksdn

/-- The `nodeVNIDMap` structure of `vnids_node.go`: forward index `ids`
(namespace name → VNID) and reverse index `namespaces` (VNID → set of
namespace names). -/
@[ext] structure NodeVNIDMap where
  ids : String → Option Nat
  namespaces : Nat → Option (Finset String)

/-- `newNodeVNIDMap()`: both maps empty. -/
def newNodeVNIDMap : NodeVNIDMap :=
  { ids := fun _ => none, namespaces := fun _ => none }

/-- `addNamespaceToSet(name, vnid)`: fetch the reverse-index set for `vnid`,
creating it when absent, and insert `name`. -/
def addNamespaceToSet (vmap : NodeVNIDMap) (name : String) (vnid : Nat) :
    NodeVNIDMap :=
  match vmap.namespaces vnid with
  | none =>
      { vmap with namespaces := Function.update vmap.namespaces vnid (some {name}) }
  | some set =>
      { vmap with namespaces := Function.update vmap.namespaces vnid (some (insert name set)) }

/-- `removeNamespaceFromSet(name, vnid)`: delete `name` from the set for
`vnid` when that set exists, dropping the whole entry when the set becomes
empty. -/
def removeNamespaceFromSet (vmap : NodeVNIDMap) (name : String) (vnid : Nat) :
    NodeVNIDMap :=
  match vmap.namespaces vnid with
  | none => vmap
  | some set =>
      let set' := set.erase name
      if set'.card = 0 then
        { vmap with namespaces := Function.update vmap.namespaces vnid none }
      else
        { vmap with namespaces := Function.update vmap.namespaces vnid (some set') }

/-- `GetNamespaces(id)`: the sorted member list of the reverse-index set
(`set.List()`), or `nil` when no set exists (both embedded as a list,
empty in the `nil` case). -/
def GetNamespaces (vmap : NodeVNIDMap) (id : Nat) : List String :=
  match vmap.namespaces id with
  | some set => set.sort (· ≤ ·)
  | none => []

/-- `GetVNID(name)`: `(id, nil)` on a hit, `(0, error)` on a miss.  The Go
pair `(uint32, error)` is embedded as `Nat × Bool`, the boolean standing for
`err == nil`. -/
def GetVNID (vmap : NodeVNIDMap) (name : String) : Nat × Bool :=
  match vmap.ids name with
  | some id => (id, true)
  | none => (0, false)

/-- `setVNID(name, id)`: when the namespace already has a VNID, remove it
from that VNID's reverse-index set, then install the forward entry and add
the name to the new VNID's set. -/
def setVNID (vmap : NodeVNIDMap) (name : String) (id : Nat) : NodeVNIDMap :=
  let vmap1 :=
    match vmap.ids name with
    | some oldId => removeNamespaceFromSet vmap name oldId
    | none => vmap
  let vmap2 := { vmap1 with ids := Function.update vmap1.ids name (some id) }
  addNamespaceToSet vmap2 name id

/-- `unsetVNID(name)`: `((0, error), table unchanged)` when the namespace has
no entry; otherwise remove the reverse-index membership, delete the forward
entry and return the old VNID. -/
def unsetVNID (vmap : NodeVNIDMap) (name : String) : (Nat × Bool) × NodeVNIDMap :=
  match vmap.ids name with
  | none => ((0, false), vmap)
  | some id =>
      let vmap1 := removeNamespaceFromSet vmap name id
      ((id, true), { vmap1 with ids := Function.update vmap1.ids name none })

/-!
## `WaitAndGetVNID` and its backoff loop

The backoff loop lives in the vendored `k8s.io/kubernetes/pkg/util/wait`
package, outside this repository's sources; only the parameters
(`Duration: 100ms, Factor: 1.5, Steps: 5`) appear in `vnids_node.go`.
Durations are embedded as rationals (milliseconds), so `1.5 * 100ms` is
exact. -/

/-- The `utilwait.Backoff` parameter record: initial sleep duration in
milliseconds, multiplication factor and attempt cap. -/
structure Backoff where
  Duration : ℚ
  Factor : ℚ
  Steps : Nat

/-- Modelled from the spec: the vendored `utilwait.ExponentialBackoff` loop
(`retries with exponential backoff — initial delay 100ms, multiplier 1.5,
hard cap of 5 attempts`), which is not part of this repository's sources.
Runs `cond` for at most `fuel` further attempts, the next one carrying index
`i`, sleeping the current duration before every attempt but the first and
multiplying the duration by `factor` after each sleep.  Returns (success,
number of attempts made, list of sleep durations). -/
def backoffLoop (cond : Nat → Bool) (factor : ℚ) :
    Nat → Nat → ℚ → List ℚ → Bool × Nat × List ℚ
  | i, 0, _, sleeps => (false, i, sleeps)
  | i, fuel + 1, dur, sleeps =>
      let dur' := if i = 0 then dur else dur * factor
      let sleeps' := if i = 0 then sleeps else sleeps ++ [dur]
      if cond i then (true, i + 1, sleeps')
      else backoffLoop cond factor (i + 1) fuel dur' sleeps'

/-- Modelled from the spec: entry point of the vendored
`utilwait.ExponentialBackoff`; the loop runs for at most `Steps`
iterations. -/
def exponentialBackoff (b : Backoff) (cond : Nat → Bool) : Bool × Nat × List ℚ :=
  backoffLoop cond b.Factor 0 b.Steps b.Duration []

/-- `WaitAndGetVNID(name)`: retry `GetVNID` under
`Backoff{Duration: 100ms, Factor: 1.5, Steps: 5}`; on success return the
fetched id, otherwise `(0, error)`.  The second component reports the
number of `GetVNID` attempts and the sleep durations performed. -/
def WaitAndGetVNID (vmap : NodeVNIDMap) (name : String) :
    (Nat × Bool) × Nat × List ℚ :=
  let backoff : Backoff := { Duration := 100, Factor := 3 / 2, Steps := 5 }
  let r := exponentialBackoff backoff (fun _ => (GetVNID vmap name).2)
  if r.1 then (((GetVNID vmap name).1, true), r.2)
  else ((0, false), r.2)

/-!
## Netns event handling

`nodeHandleNetnsEvent` walks a batch of events in order.  For `Added` it
compares the incoming VNID with the table's current value, breaking on a
duplicate, otherwise updating the table and then calling
`updatePodNetwork(name, oldNetID, netID)`.  For `Removed` it calls
`updatePodNetwork(name, netID, GlobalVNID)` first and unsets the table entry
afterwards.  `updatePodNetwork` drives external collaborators (pod and
service rule updates), so the embedding records each call together with a
snapshot of the table at call time. -/

/-- Modelled from the spec: `vnid.GlobalVNID`, defined in `pkg/vnid` outside
these sources; the spec fixes it as `VNID zero, which is a valid value
("global"/default VNID) meaning unrestricted connectivity`. -/
def GlobalVNID : Nat := 0

/-- The `NetNamespace` payload of a watch event: namespace name and VNID. -/
structure Netns where
  NetName : String
  NetID : Nat
deriving DecidableEq

/-- Event types delivered by the etcd netns watch; `Other` stands for any
unrecognized type, which the handler's `default` branch only logs. -/
inductive EventType where
  | Added
  | Removed
  | Other
deriving DecidableEq

/-- A netns watch event. -/
structure Event where
  type : EventType
  NetNS : Netns
deriving DecidableEq

/-- One recorded call `updatePodNetwork(ns, oldVNID, newVNID)`, with the
VNID table as it stood when the call was made. -/
structure UPNCall where
  ns : String
  oldVNID : Nat
  newVNID : Nat
  tbl : NodeVNIDMap

/-- The `(ns, oldVNID, newVNID)` arguments of a recorded call; the decidable
part used to compare traces. -/
def UPNCall.args (c : UPNCall) : String × Nat × Nat :=
  (c.ns, c.oldVNID, c.newVNID)

/-- One iteration of the `nodeHandleNetnsEvent` loop: the table after the
event and the `updatePodNetwork` calls it made. -/
def processNetnsEvent (vmap : NodeVNIDMap) (evt : Event) :
    NodeVNIDMap × List UPNCall :=
  match evt.type with
  | .Added =>
      let r := GetVNID vmap evt.NetNS.NetName
      if r.2 && r.1 == evt.NetNS.NetID then (vmap, [])
      else
        let vmap' := setVNID vmap evt.NetNS.NetName evt.NetNS.NetID
        (vmap', [⟨evt.NetNS.NetName, r.1, evt.NetNS.NetID, vmap'⟩])
  | .Removed =>
      ((unsetVNID vmap evt.NetNS.NetName).2,
        [⟨evt.NetNS.NetName, evt.NetNS.NetID, GlobalVNID, vmap⟩])
  | .Other => (vmap, [])

/-- `nodeHandleNetnsEvent(batch)`: fold the per-event step over the batch in
delivery order, concatenating the `updatePodNetwork` call traces. -/
def nodeHandleNetnsEvent (vmap : NodeVNIDMap) : List Event → NodeVNIDMap × List UPNCall
  | [] => (vmap, [])
  | evt :: rest =>
      let r1 := processNetnsEvent vmap evt
      let r2 := nodeHandleNetnsEvent r1.1 rest
      (r2.1, r1.2 ++ r2.2)

/-!
## Service watcher

`watchServices` keeps a shadow cache `services : map[string]*kapi.Service`
keyed by UID and handles one `cache.Delta` at a time.  The external
collaborators `AddServiceRules`/`DeleteServiceRules` are given by oracle
functions returning whether the call succeeded, and each call is recorded
in a trace. -/

/-- One entry of a `kapi.Service`'s port list; `isServiceChanged` compares
the `Protocol` and `Port` fields. -/
structure ServicePort where
  Protocol : String
  Port : Int
deriving DecidableEq

/-- The parts of a `kapi.Service` the watcher reads: UID (cache key),
namespace, cluster-IP-assigned flag (`kapi.IsServiceIPSet`, defined outside
these sources, modelled from the spec as a boolean
`cluster-IP-assigned flag`) and the ordered port list. -/
structure Service where
  UID : String
  ns : String
  ipSet : Bool
  Ports : List ServicePort
deriving DecidableEq

/-- The indexed comparison loop inside `isServiceChanged`, run when the two
port lists have equal length: walk the positions in order and report `true`
at the first position whose protocol or port differs. -/
def portsChanged : List ServicePort → List ServicePort → Bool
  | o :: os, n :: ns =>
      if o.Protocol ≠ n.Protocol ∨ o.Port ≠ n.Port then true else portsChanged os ns
  | _, _ => false

/-- `isServiceChanged(oldsvc, newsvc)`: equal-length port lists are compared
position by position on protocol and port number; a length difference is
always a change. -/
def isServiceChanged (oldsvc newsvc : Service) : Bool :=
  if oldsvc.Ports.length = newsvc.Ports.length then
    portsChanged oldsvc.Ports newsvc.Ports
  else true

/-- The delta types of the `cache.Delta` stream. -/
inductive DeltaType where
  | Sync
  | Added
  | Updated
  | Deleted
deriving DecidableEq

/-- One delta of the service watch stream. -/
structure Delta where
  type : DeltaType
  object : Service
deriving DecidableEq

/-- A recorded call to a dataplane rule primitive. -/
inductive RuleOp where
  | deleteRules (svc : Service)
  | addRules (svc : Service) (vnid : Nat)
deriving DecidableEq

/-- Outcome oracles for the external rule primitives: whether
`AddServiceRules(svc, vnid)` and `DeleteServiceRules(svc)` succeed. -/
structure RuleOracle where
  addOk : Service → Nat → Bool
  delOk : Service → Bool

/-- The delta handler closure inside `watchServices`: given the VNID table,
the rule oracles and the shadow cache, handle one delta.  Returns the new
shadow cache, the trace of rule calls made, and the error returned to the
event queue (`none` = `nil`). -/
def serviceDeltaHandler (vmap : NodeVNIDMap) (oracle : RuleOracle)
    (services : String → Option Service) (delta : Delta) :
    (String → Option Service) × List RuleOp × Option String :=
  let serv := delta.object
  if ¬ serv.ipSet then (services, [], none)
  else
    match delta.type with
    | .Sync | .Added | .Updated =>
        let existing := services serv.UID
        match existing with
        | some oldsvc =>
            if ¬ isServiceChanged oldsvc serv then (services, [], none)
            else
              -- DeleteServiceRules(oldsvc); its error is only logged
              let ops0 := [RuleOp.deleteRules oldsvc]
              let r := WaitAndGetVNID vmap serv.ns
              if ¬ r.1.2 then (services, ops0, some "skipped adding service rules")
              else
                let netid := r.1.1
                if ¬ oracle.addOk serv netid then
                  (services, ops0 ++ [RuleOp.addRules serv netid], some "AddServiceRules failed")
                else
                  (Function.update services serv.UID (some serv),
                    ops0 ++ [RuleOp.addRules serv netid], none)
        | none =>
            let r := WaitAndGetVNID vmap serv.ns
            if ¬ r.1.2 then (services, [], some "skipped adding service rules")
            else
              let netid := r.1.1
              if ¬ oracle.addOk serv netid then
                (services, [RuleOp.addRules serv netid], some "AddServiceRules failed")
              else
                (Function.update services serv.UID (some serv),
                  [RuleOp.addRules serv netid], none)
    | .Deleted =>
        let services' := Function.update services serv.UID none
        if ¬ oracle.delOk serv then
          (services', [RuleOp.deleteRules serv], some "DeleteServiceRules failed")
        else (services', [RuleOp.deleteRules serv], none)

/-!
## Predicates and op sequences used by the statements -/

/-- Membership in a reverse-index set: `n` is in the set the map associates
with VNID `v`. -/
def memNS (f : Nat → Option (Finset String)) (n : String) (v : Nat) : Prop :=
  ∃ s, f v = some s ∧ n ∈ s

/-- Mutual consistency of the two indices: a namespace maps to `v` in `ids`
exactly when it is a member of `v`'s reverse-index set. -/
def Consistent (vmap : NodeVNIDMap) : Prop :=
  ∀ n v, vmap.ids n = some v ↔ memNS vmap.namespaces n v

/-- One mutation of the VNID table. -/
inductive VOp where
  | set (name : String) (id : Nat)
  | unset (name : String)

/-- Apply a sequence of `setVNID`/`unsetVNID` calls in order. -/
def applyOps (vmap : NodeVNIDMap) : List VOp → NodeVNIDMap
  | [] => vmap
  | .set n v :: rest => applyOps (setVNID vmap n v) rest
  | .unset n :: rest => applyOps (unsetVNID vmap n).2 rest

/-!
## Concrete fixtures for the service-watcher scenarios -/

/-- A clustered service with ordered port list `[{TCP,80}]`. -/
def svcTCP80 : Service :=
  { UID := "u1", ns := "n", ipSet := true, Ports := [{ Protocol := "TCP", Port := 80 }] }

/-- The same service after adding a port: `[{TCP,80},{TCP,443}]`. -/
def svcTCP80443 : Service :=
  { UID := "u1", ns := "n", ipSet := true,
    Ports := [{ Protocol := "TCP", Port := 80 }, { Protocol := "TCP", Port := 443 }] }

/-- A VNID table mapping the services' namespace `"n"` to VNID 4. -/
def svcVmap : NodeVNIDMap := setVNID newNodeVNIDMap "n" 4

/-- A shadow cache holding `svcTCP80` under its UID. -/
def svcCache : String → Option Service :=
  Function.update (fun _ => none) "u1" (some svcTCP80)

/-- Rule oracles under which every dataplane call succeeds. -/
def allOk : RuleOracle := { addOk := fun _ _ => true, delOk := fun _ => true }

end Ksdn

/-!
## Helper lemmas -/

namespace Ksdn

theorem ids_addNamespaceToSet (vmap : NodeVNIDMap) (name : String) (vnid : Nat) :
    (addNamespaceToSet vmap name vnid).ids = vmap.ids := by
  unfold addNamespaceToSet
  cases vmap.namespaces vnid <;> rfl

theorem ids_removeNamespaceFromSet (vmap : NodeVNIDMap) (name : String) (vnid : Nat) :
    (removeNamespaceFromSet vmap name vnid).ids = vmap.ids := by
  unfold removeNamespaceFromSet
  cases vmap.namespaces vnid
  · rfl
  · dsimp only
    split <;> rfl

theorem ids_setVNID (vmap : NodeVNIDMap) (name : String) (id : Nat) :
    (setVNID vmap name id).ids = Function.update vmap.ids name (some id) := by
  unfold setVNID
  rw [ids_addNamespaceToSet]
  cases vmap.ids name <;> simp [ids_removeNamespaceFromSet]

theorem memNS_addNamespaceToSet (vmap : NodeVNIDMap) (name : String) (vnid : Nat)
    (n : String) (v : Nat) :
    memNS (addNamespaceToSet vmap name vnid).namespaces n v ↔
      (if v = vnid then n = name ∨ memNS vmap.namespaces n v
       else memNS vmap.namespaces n v) := by
  unfold addNamespaceToSet
  by_cases hv : v = vnid
  · subst hv
    cases h : vmap.namespaces v <;>
      simp [memNS, h, Function.update_same]
  · cases h : vmap.namespaces vnid <;>
      simp [memNS, Function.update_noteq hv, hv]

theorem memNS_removeNamespaceFromSet (vmap : NodeVNIDMap) (name : String) (vnid : Nat)
    (n : String) (v : Nat) :
    memNS (removeNamespaceFromSet vmap name vnid).namespaces n v ↔
      (if v = vnid then n ≠ name ∧ memNS vmap.namespaces n v
       else memNS vmap.namespaces n v) := by
  unfold removeNamespaceFromSet
  by_cases hv : v = vnid
  · subst hv
    cases h : vmap.namespaces v
    · simp [memNS, h]
    · rename_i s
      dsimp only
      by_cases hc : (s.erase name).card = 0
      · have hs : s = ∅ ∨ s = {name} := by
          rw [← Finset.erase_eq_empty_iff]
          exact Finset.card_eq_zero.mp hc
        rcases hs with hs | hs <;> subst hs <;>
          simp [memNS, hc, h, Function.update_same]
      · simp [memNS, hc, h, Function.update_same, Finset.mem_erase, and_comm]
  · cases h : vmap.namespaces vnid
    · simp [memNS, hv]
    · dsimp only
      by_cases hc : ((Option.get (vmap.namespaces vnid) (by simp [h])).erase name).card = 0 <;>
        simp [memNS, h, Function.update_noteq hv, hv] at hc ⊢ <;>
        split <;>
        simp [Function.update_noteq hv]

theorem GetVNID_of_none {vmap : NodeVNIDMap} {name : String}
    (h : vmap.ids name = none) : GetVNID vmap name = (0, false) := by
  simp [GetVNID, h]

theorem GetVNID_of_some {vmap : NodeVNIDMap} {name : String} {v : Nat}
    (h : vmap.ids name = some v) : GetVNID vmap name = (v, true) := by
  simp [GetVNID, h]

theorem GetVNID_eq_some_iff (vmap : NodeVNIDMap) (name : String) (v : Nat) :
    GetVNID vmap name = (v, true) ↔ vmap.ids name = some v := by
  unfold GetVNID
  cases h : vmap.ids name <;> simp

theorem mem_GetNamespaces (vmap : NodeVNIDMap) (n : String) (v : Nat) :
    n ∈ GetNamespaces vmap v ↔ memNS vmap.namespaces n v := by
  unfold GetNamespaces
  cases h : vmap.namespaces v <;> simp [memNS, Finset.mem_sort, h]

theorem WaitAndGetVNID_of_none {vmap : NodeVNIDMap} {name : String}
    (h : vmap.ids name = none) :
    WaitAndGetVNID vmap name = ((0, false), 5, [100, 150, 225, 675 / 2]) := by
  have hg : GetVNID vmap name = (0, false) := GetVNID_of_none h
  norm_num [WaitAndGetVNID, exponentialBackoff, backoffLoop, hg]

theorem WaitAndGetVNID_of_some {vmap : NodeVNIDMap} {name : String} {v : Nat}
    (h : vmap.ids name = some v) :
    WaitAndGetVNID vmap name = ((v, true), 1, []) := by
  have hg : GetVNID vmap name = (v, true) := GetVNID_of_some h
  norm_num [WaitAndGetVNID, exponentialBackoff, backoffLoop, hg]

theorem namespaces_setVNID (vmap : NodeVNIDMap) (name : String) (id : Nat) :
    (setVNID vmap name id).namespaces =
      (addNamespaceToSet
        (match vmap.ids name with
         | some oldId => removeNamespaceFromSet vmap name oldId
         | none => vmap) name id).namespaces := by
  unfold setVNID
  cases h : vmap.ids name <;> dsimp only
  · unfold addNamespaceToSet
    cases hs : vmap.namespaces id <;> simp [hs]
  · rename_i oldId
    unfold addNamespaceToSet
    cases hs : (removeNamespaceFromSet vmap name oldId).namespaces id <;> simp [hs]

theorem consistent_newNodeVNIDMap : Consistent newNodeVNIDMap := by
  intro n v
  simp [newNodeVNIDMap, memNS]

theorem consistent_setVNID {vmap : NodeVNIDMap} (hcon : Consistent vmap)
    (name : String) (id : Nat) : Consistent (setVNID vmap name id) := by
  intro n v
  rw [ids_setVNID, namespaces_setVNID, memNS_addNamespaceToSet]
  cases hid : vmap.ids name <;> dsimp only
  · rw [← hcon n v]
    rcases eq_or_ne n name with rfl | hn
    · rw [Function.update_same, hid]
      split_ifs with hv <;> simp_all <;> omega
    · rw [Function.update_noteq hn]
      split_ifs with hv <;> simp [hn]
  · rename_i oldId
    simp only [memNS_removeNamespaceFromSet]
    rw [← hcon n v]
    rcases eq_or_ne n name with rfl | hn
    · rw [Function.update_same, hid]
      split_ifs with hv h2 <;> simp_all <;> omega
    · rw [Function.update_noteq hn]
      split_ifs with hv h2 <;> simp [hn]

theorem consistent_unsetVNID {vmap : NodeVNIDMap} (hcon : Consistent vmap)
    (name : String) : Consistent (unsetVNID vmap name).2 := by
  unfold unsetVNID
  cases hid : vmap.ids name <;> dsimp only
  · exact hcon
  · rename_i id
    intro n v
    dsimp only
    rw [ids_removeNamespaceFromSet]
    rw [memNS_removeNamespaceFromSet, ← hcon n v]
    rcases eq_or_ne n name with rfl | hn
    · rw [Function.update_same, hid]
      split_ifs with hv <;> simp_all <;> omega
    · rw [Function.update_noteq hn]
      split_ifs with hv <;> simp [hn]

theorem consistent_applyOps {vmap : NodeVNIDMap} (hcon : Consistent vmap) :
    ∀ ops : List VOp, Consistent (applyOps vmap ops) := by
  intro ops
  induction ops generalizing vmap with
  | nil => exact hcon
  | cons op rest ih =>
      cases op with
      | set n v => exact ih (consistent_setVNID hcon n v)
      | unset n => exact ih (consistent_unsetVNID hcon n)

theorem namespaces_addNamespaceToSet (vmap : NodeVNIDMap) (name : String) (vnid : Nat) :
    (addNamespaceToSet vmap name vnid).namespaces =
      Function.update vmap.namespaces vnid
        (some (insert name ((vmap.namespaces vnid).getD ∅))) := by
  unfold addNamespaceToSet
  cases h : vmap.namespaces vnid <;> simp [h]

theorem namespaces_removeNamespaceFromSet (vmap : NodeVNIDMap) (name : String) (vnid : Nat) :
    (removeNamespaceFromSet vmap name vnid).namespaces =
      (match vmap.namespaces vnid with
       | none => vmap.namespaces
       | some s =>
           if (s.erase name).card = 0 then Function.update vmap.namespaces vnid none
           else Function.update vmap.namespaces vnid (some (s.erase name))) := by
  unfold removeNamespaceFromSet
  cases h : vmap.namespaces vnid
  · rfl
  · dsimp only
    split <;> rfl

theorem setVNID_idem (vmap : NodeVNIDMap) (n : String) (v : Nat) :
    setVNID (setVNID vmap n v) n v = setVNID vmap n v := by
  have hids : (setVNID vmap n v).ids n = some v := by
    rw [ids_setVNID, Function.update_same]
  have hmem : memNS (setVNID vmap n v).namespaces n v := by
    rw [namespaces_setVNID, memNS_addNamespaceToSet]
    simp
  obtain ⟨s1, hs1, hn1⟩ := hmem
  refine NodeVNIDMap.ext ?_ ?_
  · rw [ids_setVNID, ids_setVNID, Function.update_idem]
  · rw [namespaces_setVNID]
    simp only [hids]
    rw [namespaces_addNamespaceToSet, namespaces_removeNamespaceFromSet]
    simp only [hs1]
    by_cases hc : (s1.erase n).card = 0
    · have hs : s1 = {n} := by
        rcases (Finset.erase_eq_empty_iff s1 n).mp (Finset.card_eq_zero.mp hc) with h | h
        · subst h; simp at hn1
        · exact h
      rw [if_pos hc]
      rw [Function.update_idem, Function.update_same]
      simp only [Option.getD_none]
      rw [show insert n (∅ : Finset String) = {n} from rfl, ← hs, ← hs1,
        Function.update_eq_self]
    · rw [if_neg hc]
      rw [Function.update_idem, Function.update_same]
      simp only [Option.getD_some]
      rw [Finset.insert_erase hn1, ← hs1, Function.update_eq_self]

end Ksdn

/-!
## Claim theorems -/

namespace Ksdn

/-- C1: starting from the empty table, after any sequence of
`setVNID`/`unsetVNID` calls the forward and reverse indices agree: a
namespace `n` has `GetVNID(n) = v` (successfully) exactly when `n` is listed
by `GetNamespaces(v)`. -/
theorem C1_forward_reverse_consistency (ops : List VOp) (n : String) (v : Nat) :
    GetVNID (applyOps newNodeVNIDMap ops) n = (v, true) ↔
      n ∈ GetNamespaces (applyOps newNodeVNIDMap ops) v := by
  rw [GetVNID_eq_some_iff, mem_GetNamespaces]
  exact consistent_applyOps consistent_newNodeVNIDMap ops n v

/-- Witness for C1 at a concrete op sequence including a re-assignment. -/
theorem C1_forward_reverse_consistency_witness :
    "a" ∈ GetNamespaces
      (applyOps newNodeVNIDMap [VOp.set "a" 5, VOp.set "b" 5, VOp.set "a" 7]) 7 :=
  (C1_forward_reverse_consistency [VOp.set "a" 5, VOp.set "b" 5, VOp.set "a" 7] "a" 7).mp
    (by simp [applyOps, setVNID, addNamespaceToSet, removeNamespaceFromSet,
          newNodeVNIDMap, GetVNID, Function.update])

/-- C5: a name absent from the table makes `GetVNID` signal not-found with
no valid VNID, and `WaitAndGetVNID` makes exactly its budget of 5 attempts
with backoff sleeps 100ms, 150ms, 225ms, 337.5ms before signalling the same
not-found failure; a present name is returned by both without error (one
attempt, no sleeps). -/
theorem C5_lookup_not_found_and_retry_budget (vmap : NodeVNIDMap) (name : String) :
    (vmap.ids name = none →
       GetVNID vmap name = (0, false) ∧
       WaitAndGetVNID vmap name = ((0, false), 5, [100, 150, 225, 675 / 2])) ∧
    (∀ v, vmap.ids name = some v →
       GetVNID vmap name = (v, true) ∧
       WaitAndGetVNID vmap name = ((v, true), 1, [])) :=
  ⟨fun h => ⟨GetVNID_of_none h, WaitAndGetVNID_of_none h⟩,
   fun _ h => ⟨GetVNID_of_some h, WaitAndGetVNID_of_some h⟩⟩

/-- Witness for C5: the empty table on the absent side, a one-entry table on
the present side. -/
theorem C5_lookup_not_found_and_retry_budget_witness :
    newNodeVNIDMap.ids "nonexistent" = none ∧
    GetVNID newNodeVNIDMap "nonexistent" = (0, false) ∧
    WaitAndGetVNID newNodeVNIDMap "nonexistent" = ((0, false), 5, [100, 150, 225, 675 / 2]) ∧
    (setVNID newNodeVNIDMap "a" 9).ids "a" = some 9 ∧
    GetVNID (setVNID newNodeVNIDMap "a" 9) "a" = (9, true) ∧
    WaitAndGetVNID (setVNID newNodeVNIDMap "a" 9) "a" = ((9, true), 1, []) := by
  have h1 : newNodeVNIDMap.ids "nonexistent" = none := rfl
  have h2 : (setVNID newNodeVNIDMap "a" 9).ids "a" = some 9 := by
    simp [setVNID, newNodeVNIDMap, addNamespaceToSet, Function.update]
  have m1 := (C5_lookup_not_found_and_retry_budget newNodeVNIDMap "nonexistent").1 h1
  have m2 := (C5_lookup_not_found_and_retry_budget (setVNID newNodeVNIDMap "a" 9) "a").2 9 h2
  exact ⟨h1, m1.1, m1.2, h2, m2.1, m2.2⟩

/-- C6: `setVNID` is an idempotent upsert — calling it twice with the same
name and VNID leaves the same observable state (every `GetVNID` and every
`GetNamespaces` result) as calling it once, from any starting table. -/
theorem C6_setVNID_idempotent (vmap : NodeVNIDMap) (n : String) (v : Nat) :
    (∀ n', GetVNID (setVNID (setVNID vmap n v) n v) n' = GetVNID (setVNID vmap n v) n') ∧
    (∀ v', GetNamespaces (setVNID (setVNID vmap n v) n v) v' =
      GetNamespaces (setVNID vmap n v) v') := by
  rw [setVNID_idem]
  exact ⟨fun _ => rfl, fun _ => rfl⟩

/-- C7: re-assignment moves the namespace between reverse-index sets: from
any table, `setVNID("ns1", 5)` then `setVNID("ns1", 7)` leaves
`GetVNID("ns1") = 7`, `"ns1"` absent from `GetNamespaces(5)` and present in
`GetNamespaces(7)`. -/
theorem C7_reassignment_moves_reverse_index (vmap : NodeVNIDMap) :
    GetVNID (setVNID (setVNID vmap "ns1" 5) "ns1" 7) "ns1" = (7, true) ∧
    "ns1" ∉ GetNamespaces (setVNID (setVNID vmap "ns1" 5) "ns1" 7) 5 ∧
    "ns1" ∈ GetNamespaces (setVNID (setVNID vmap "ns1" 5) "ns1" 7) 7 := by
  have hids : (setVNID vmap "ns1" 5).ids "ns1" = some 5 := by
    rw [ids_setVNID, Function.update_same]
  refine ⟨?_, ?_, ?_⟩
  · rw [GetVNID_eq_some_iff, ids_setVNID, Function.update_same]
  · rw [mem_GetNamespaces, namespaces_setVNID]
    simp only [hids]
    rw [memNS_addNamespaceToSet, if_neg (by omega)]
    rw [memNS_removeNamespaceFromSet, if_pos rfl]
    simp
  · rw [mem_GetNamespaces, namespaces_setVNID]
    simp only [hids]
    rw [memNS_addNamespaceToSet, if_pos rfl]
    simp

/-- Witness for C7 at the empty table. -/
theorem C7_reassignment_moves_reverse_index_witness :
    GetVNID (setVNID (setVNID newNodeVNIDMap "ns1" 5) "ns1" 7) "ns1" = (7, true) ∧
    "ns1" ∉ GetNamespaces (setVNID (setVNID newNodeVNIDMap "ns1" 5) "ns1" 7) 5 ∧
    "ns1" ∈ GetNamespaces (setVNID (setVNID newNodeVNIDMap "ns1" 5) "ns1" 7) 7 :=
  C7_reassignment_moves_reverse_index newNodeVNIDMap

/-- C8: `unsetVNID` on an absent namespace fails with not-found and leaves
the table unchanged; on a present namespace with VNID `v` it returns `v`,
removes the forward entry and the reverse-index membership, and drops the
whole set entry when the namespace was its only member. -/
theorem C8_unsetVNID_cleanup (vmap : NodeVNIDMap) (name : String) :
    (vmap.ids name = none → unsetVNID vmap name = ((0, false), vmap)) ∧
    (∀ v, vmap.ids name = some v →
       (unsetVNID vmap name).1 = (v, true) ∧
       GetVNID (unsetVNID vmap name).2 name = (0, false) ∧
       name ∉ GetNamespaces (unsetVNID vmap name).2 v ∧
       (vmap.namespaces v = some {name} →
         (unsetVNID vmap name).2.namespaces v = none)) := by
  constructor
  · intro h
    unfold unsetVNID
    rw [h]
  · intro v h
    unfold unsetVNID
    rw [h]
    dsimp only
    refine ⟨rfl, ?_, ?_, ?_⟩
    · exact GetVNID_of_none (by simp [Function.update_same])
    · rw [mem_GetNamespaces]
      show ¬ memNS (removeNamespaceFromSet vmap name v).namespaces name v
      rw [memNS_removeNamespaceFromSet, if_pos rfl]
      simp
    · intro hsv
      show (removeNamespaceFromSet vmap name v).namespaces v = none
      rw [namespaces_removeNamespaceFromSet, hsv]
      dsimp only
      rw [if_pos (by simp), Function.update_same]

/-- Witness for C8: `"ns1"` is the only member of VNID 5's set; after
`unsetVNID("ns1")` the set entry is gone, and `unsetVNID` on the now-empty
table fails leaving it unchanged. -/
theorem C8_unsetVNID_cleanup_witness :
    (setVNID newNodeVNIDMap "ns1" 5).ids "ns1" = some 5 ∧
    (setVNID newNodeVNIDMap "ns1" 5).namespaces 5 = some {"ns1"} ∧
    (unsetVNID (setVNID newNodeVNIDMap "ns1" 5) "ns1").1 = (5, true) ∧
    GetVNID (unsetVNID (setVNID newNodeVNIDMap "ns1" 5) "ns1").2 "ns1" = (0, false) ∧
    "ns1" ∉ GetNamespaces (unsetVNID (setVNID newNodeVNIDMap "ns1" 5) "ns1").2 5 ∧
    (unsetVNID (setVNID newNodeVNIDMap "ns1" 5) "ns1").2.namespaces 5 = none := by
  have h1 : (setVNID newNodeVNIDMap "ns1" 5).ids "ns1" = some 5 := by
    simp [setVNID, newNodeVNIDMap, addNamespaceToSet, Function.update]
  have h2 : (setVNID newNodeVNIDMap "ns1" 5).namespaces 5 = some {"ns1"} := by
    simp [setVNID, newNodeVNIDMap, addNamespaceToSet, Function.update]
  have m := (C8_unsetVNID_cleanup (setVNID newNodeVNIDMap "ns1" 5) "ns1").2 5 h1
  exact ⟨h1, h2, m.1, m.2.1, m.2.2.1, m.2.2.2 h2⟩

end Ksdn

namespace Ksdn

/-- C3: a duplicate `Added` event is a no-op: from any table not already
recording `(ns, v)`, the batch `[Added(ns,v), Added(ns,v)]` triggers exactly
one reconciliation pass and one table update, and the second event leaves
the table unchanged (the table after the batch equals the table after the
first event alone). -/
theorem C3_duplicate_added_suppressed (vmap : NodeVNIDMap) (ns : String) (v : Nat)
    (h : GetVNID vmap ns ≠ (v, true)) :
    (nodeHandleNetnsEvent vmap
      [⟨EventType.Added, ⟨ns, v⟩⟩, ⟨EventType.Added, ⟨ns, v⟩⟩]).2.length = 1 ∧
    (nodeHandleNetnsEvent vmap
      [⟨EventType.Added, ⟨ns, v⟩⟩, ⟨EventType.Added, ⟨ns, v⟩⟩]).1 =
      (nodeHandleNetnsEvent vmap [⟨EventType.Added, ⟨ns, v⟩⟩]).1 := by
  have hg1 : ((GetVNID vmap ns).2 && (GetVNID vmap ns).1 == v) = false := by
    rcases hr : GetVNID vmap ns with ⟨a, b⟩
    cases b
    · simp
    · have hav : a ≠ v := fun hav => h (by rw [hr, hav])
      simp [hav]
  have hg2 : GetVNID (setVNID vmap ns v) ns = (v, true) :=
    GetVNID_of_some (by rw [ids_setVNID, Function.update_same])
  constructor <;>
    simp [nodeHandleNetnsEvent, processNetnsEvent, hg1, hg2]

/-- Witness for C3 from the empty table with `Added("a", 3)` twice. -/
theorem C3_duplicate_added_suppressed_witness :
    GetVNID newNodeVNIDMap "a" ≠ (3, true) ∧
    (nodeHandleNetnsEvent newNodeVNIDMap
      [⟨EventType.Added, ⟨"a", 3⟩⟩, ⟨EventType.Added, ⟨"a", 3⟩⟩]).2.length = 1 ∧
    (nodeHandleNetnsEvent newNodeVNIDMap
      [⟨EventType.Added, ⟨"a", 3⟩⟩, ⟨EventType.Added, ⟨"a", 3⟩⟩]).1 =
      (nodeHandleNetnsEvent newNodeVNIDMap [⟨EventType.Added, ⟨"a", 3⟩⟩]).1 := by
  have h : GetVNID newNodeVNIDMap "a" ≠ (3, true) := by
    simp [GetVNID, newNodeVNIDMap]
  have m := C3_duplicate_added_suppressed newNodeVNIDMap "a" 3 h
  exact ⟨h, m.1, m.2⟩

/-- C2 fails as stated: the removal's reconciliation pass is invoked with
the VNID carried by the `Removed` event, not with the table's current VNID
for the namespace.  With the table recording `a ↦ 1`, a `Removed` event for
`a` carrying VNID 2 makes the pass receive old VNID 2 while the namespace's
current VNID is 1. -/
theorem C2_counterexample :
    GetVNID (nodeHandleNetnsEvent newNodeVNIDMap [⟨EventType.Added, ⟨"a", 1⟩⟩]).1 "a"
      = (1, true) ∧
    ((nodeHandleNetnsEvent (nodeHandleNetnsEvent newNodeVNIDMap
        [⟨EventType.Added, ⟨"a", 1⟩⟩]).1
        [⟨EventType.Removed, ⟨"a", 2⟩⟩]).2.map UPNCall.args) = [("a", 2, GlobalVNID)] ∧
    (2 : Nat) ≠ 1 := by
  refine ⟨?_, ?_, by omega⟩ <;>
    simp [nodeHandleNetnsEvent, processNetnsEvent, GetVNID, setVNID, newNodeVNIDMap,
      addNamespaceToSet, removeNamespaceFromSet, unsetVNID, Function.update,
      UPNCall.args, GlobalVNID]

/-- C2 (amended): for every `Removed` event, the reconciliation pass is
invoked exactly once, with the VNID carried by the event as the old VNID and
the global/default VNID as the new one, against the table as it stood before
removal — so a namespace entry is still queryable during the pass — and the
table entry is removed only afterwards.  For the batch
`[Added(a,1), Removed(a,1)]` the table ends with no entry for `a` and the
removal's pass was invoked with old VNID 1. -/
theorem C2_removed_reconcile_then_unset (vmap : NodeVNIDMap) (ns : String)
    (netid v : Nat) (h : vmap.ids ns = some v) :
    ((processNetnsEvent vmap ⟨EventType.Removed, ⟨ns, netid⟩⟩).2.map UPNCall.args)
      = [(ns, netid, GlobalVNID)] ∧
    (∀ c ∈ (processNetnsEvent vmap ⟨EventType.Removed, ⟨ns, netid⟩⟩).2,
       GetVNID c.tbl ns = (v, true)) ∧
    GetVNID (processNetnsEvent vmap ⟨EventType.Removed, ⟨ns, netid⟩⟩).1 ns = (0, false) ∧
    GetVNID (nodeHandleNetnsEvent newNodeVNIDMap
      [⟨EventType.Added, ⟨"a", 1⟩⟩, ⟨EventType.Removed, ⟨"a", 1⟩⟩]).1 "a" = (0, false) ∧
    ((nodeHandleNetnsEvent newNodeVNIDMap
      [⟨EventType.Added, ⟨"a", 1⟩⟩, ⟨EventType.Removed, ⟨"a", 1⟩⟩]).2.map UPNCall.args)
      = [("a", 0, 1), ("a", 1, GlobalVNID)] := by
  refine ⟨?_, ?_, ?_, ?_, ?_⟩
  · simp [processNetnsEvent, UPNCall.args]
  · intro c hc
    simp only [processNetnsEvent, List.mem_singleton] at hc
    subst hc
    exact GetVNID_of_some h
  · simp only [processNetnsEvent]
    unfold unsetVNID
    rw [h]
    exact GetVNID_of_none (by simp [Function.update_same])
  · simp [nodeHandleNetnsEvent, processNetnsEvent, GetVNID, setVNID, newNodeVNIDMap,
      addNamespaceToSet, removeNamespaceFromSet, unsetVNID, Function.update]
  · simp [nodeHandleNetnsEvent, processNetnsEvent, GetVNID, setVNID, newNodeVNIDMap,
      addNamespaceToSet, removeNamespaceFromSet, unsetVNID, Function.update,
      UPNCall.args, GlobalVNID]

/-- Witness for C2 (amended) at a one-entry table. -/
theorem C2_removed_reconcile_then_unset_witness :
    (setVNID newNodeVNIDMap "a" 1).ids "a" = some 1 ∧
    ((processNetnsEvent (setVNID newNodeVNIDMap "a" 1)
        ⟨EventType.Removed, ⟨"a", 1⟩⟩).2.map UPNCall.args) = [("a", 1, GlobalVNID)] ∧
    GetVNID (processNetnsEvent (setVNID newNodeVNIDMap "a" 1)
        ⟨EventType.Removed, ⟨"a", 1⟩⟩).1 "a" = (0, false) := by
  have h : (setVNID newNodeVNIDMap "a" 1).ids "a" = some 1 := by
    simp [setVNID, newNodeVNIDMap, addNamespaceToSet, Function.update]
  have m := C2_removed_reconcile_then_unset (setVNID newNodeVNIDMap "a" 1) "a" 1 1 h
  exact ⟨h, m.1, m.2.2.1⟩

/-- C9: an `Added` event for a namespace with no table entry invokes the
reconciliation pass with old VNID 0 — numerically the global/default VNID —
so the pass cannot distinguish a previously-unknown namespace from one that
previously held the global VNID 0: both produce the same call trace. -/
theorem C9_unknown_old_vnid_is_global_zero (vmap vmapG : NodeVNIDMap)
    (ns : String) (v : Nat) (h : vmap.ids ns = none) (hG : vmapG.ids ns = some 0)
    (hv : v ≠ 0) :
    GlobalVNID = 0 ∧
    ((nodeHandleNetnsEvent vmap [⟨EventType.Added, ⟨ns, v⟩⟩]).2.map UPNCall.args)
      = [(ns, GlobalVNID, v)] ∧
    ((nodeHandleNetnsEvent vmapG [⟨EventType.Added, ⟨ns, v⟩⟩]).2.map UPNCall.args)
      = [(ns, GlobalVNID, v)] := by
  have hg : GetVNID vmap ns = (0, false) := GetVNID_of_none h
  have hgG : GetVNID vmapG ns = (0, true) := GetVNID_of_some hG
  refine ⟨rfl, ?_, ?_⟩ <;>
    simp [nodeHandleNetnsEvent, processNetnsEvent, hg, hgG, GlobalVNID, UPNCall.args,
      Ne.symm hv]

/-- Witness for C9: the empty table and a table recording `a ↦ 0`, receiving
`Added("a", 3)`. -/
theorem C9_unknown_old_vnid_is_global_zero_witness :
    newNodeVNIDMap.ids "a" = none ∧
    (setVNID newNodeVNIDMap "a" 0).ids "a" = some 0 ∧
    ((nodeHandleNetnsEvent newNodeVNIDMap
        [⟨EventType.Added, ⟨"a", 3⟩⟩]).2.map UPNCall.args) = [("a", GlobalVNID, 3)] ∧
    ((nodeHandleNetnsEvent (setVNID newNodeVNIDMap "a" 0)
        [⟨EventType.Added, ⟨"a", 3⟩⟩]).2.map UPNCall.args) = [("a", GlobalVNID, 3)] := by
  have h : newNodeVNIDMap.ids "a" = none := rfl
  have hG : (setVNID newNodeVNIDMap "a" 0).ids "a" = some 0 := by
    simp [setVNID, newNodeVNIDMap, addNamespaceToSet, Function.update]
  have m := C9_unknown_old_vnid_is_global_zero newNodeVNIDMap
    (setVNID newNodeVNIDMap "a" 0) "a" 3 h hG (by omega)
  exact ⟨h, hG, m.2.1, m.2.2⟩

end Ksdn

namespace Ksdn

theorem portsChanged_eq_false_iff :
    ∀ l1 l2 : List ServicePort, l1.length = l2.length →
      (portsChanged l1 l2 = false ↔
        List.Forall₂ (fun a b => a.Protocol = b.Protocol ∧ a.Port = b.Port) l1 l2)
  | [], [], _ => by simp [portsChanged]
  | [], _ :: _, hlen => by simp at hlen
  | _ :: _, [], hlen => by simp at hlen
  | o :: os, n :: ns, hlen => by
      have ih := portsChanged_eq_false_iff os ns (by simpa using hlen)
      by_cases hp : o.Protocol = n.Protocol ∧ o.Port = n.Port
      · simp only [portsChanged, if_neg (by tauto : ¬ (o.Protocol ≠ n.Protocol ∨ o.Port ≠ n.Port))]
        simp [List.forall₂_cons, hp.1, hp.2, ih]
      · have hcond : o.Protocol ≠ n.Protocol ∨ o.Port ≠ n.Port := by tauto
        simp only [portsChanged, if_pos hcond]
        simp [List.forall₂_cons]
        tauto

theorem isServiceChanged_eq_false_iff (oldsvc newsvc : Service) :
    isServiceChanged oldsvc newsvc = false ↔
      (oldsvc.Ports.length = newsvc.Ports.length ∧
       ∀ (i : Nat) (h1 : i < oldsvc.Ports.length) (h2 : i < newsvc.Ports.length),
         (oldsvc.Ports.get ⟨i, h1⟩).Protocol = (newsvc.Ports.get ⟨i, h2⟩).Protocol ∧
         (oldsvc.Ports.get ⟨i, h1⟩).Port = (newsvc.Ports.get ⟨i, h2⟩).Port) := by
  unfold isServiceChanged
  by_cases hlen : oldsvc.Ports.length = newsvc.Ports.length
  · rw [if_pos hlen, portsChanged_eq_false_iff _ _ hlen, List.forall₂_iff_get]
  · rw [if_neg hlen]
    simp [hlen]

end Ksdn

namespace Ksdn

/-- C4: `isServiceChanged` reports a service unchanged exactly when the old
and new port lists have the same length and agree at every position on
protocol and port number; consequently an update identical to the cached
`[{TCP,80}]` is a no-op for the delta handler (no rule delete/add issued,
cache untouched), while an update to `[{TCP,80},{TCP,443}]` issues a
delete-then-add pair. -/
theorem C4_service_change_detection :
    (∀ oldsvc newsvc : Service,
       isServiceChanged oldsvc newsvc = false ↔
         (oldsvc.Ports.length = newsvc.Ports.length ∧
          ∀ (i : Nat) (h1 : i < oldsvc.Ports.length) (h2 : i < newsvc.Ports.length),
            (oldsvc.Ports.get ⟨i, h1⟩).Protocol = (newsvc.Ports.get ⟨i, h2⟩).Protocol ∧
            (oldsvc.Ports.get ⟨i, h1⟩).Port = (newsvc.Ports.get ⟨i, h2⟩).Port)) ∧
    serviceDeltaHandler svcVmap allOk svcCache ⟨DeltaType.Updated, svcTCP80⟩ =
      (svcCache, [], none) ∧
    (serviceDeltaHandler svcVmap allOk svcCache ⟨DeltaType.Updated, svcTCP80443⟩).2 =
      ([RuleOp.deleteRules svcTCP80, RuleOp.addRules svcTCP80443 4], none) := by
  have hw : WaitAndGetVNID svcVmap "n" = ((4, true), 1, []) :=
    WaitAndGetVNID_of_some
      (by simp [svcVmap, setVNID, newNodeVNIDMap, addNamespaceToSet, Function.update])
  refine ⟨isServiceChanged_eq_false_iff, ?_, ?_⟩ <;>
    simp [serviceDeltaHandler, svcCache, svcTCP80, svcTCP80443, isServiceChanged,
      portsChanged, Function.update, hw, allOk]

/-- Witness for C4: the unchanged characterization applied to the concrete
`[{TCP,80}]` service. -/
theorem C4_service_change_detection_witness :
    isServiceChanged svcTCP80 svcTCP80 = false :=
  (C4_service_change_detection.1 svcTCP80 svcTCP80).mpr
    ⟨rfl, by
      intro i h1 h2
      simp only [svcTCP80, List.length_singleton] at h1
      interval_cases i
      exact ⟨rfl, rfl⟩⟩

/-- C10: in the service delta handler (non-`Deleted` deltas of a clustered
service whose cached entry, if any, differs), the shadow cache is written
only after `AddServiceRules` succeeds: a `WaitAndGetVNID` failure or an
`AddServiceRules` error makes the handler return an error with the cache
unchanged, and on success the UID's entry is replaced by the new
definition with no error. -/
theorem C10_cache_update_only_on_success (vmap : NodeVNIDMap) (oracle : RuleOracle)
    (services : String → Option Service) (d : Delta)
    (hT : d.type ≠ DeltaType.Deleted) (hIP : d.object.ipSet = true)
    (hdup : ∀ oldsvc, services d.object.UID = some oldsvc →
       isServiceChanged oldsvc d.object = true) :
    (vmap.ids d.object.ns = none →
       ((serviceDeltaHandler vmap oracle services d).2.2.isSome = true ∧
        (serviceDeltaHandler vmap oracle services d).1 = services)) ∧
    (∀ netid, vmap.ids d.object.ns = some netid →
       (oracle.addOk d.object netid = false →
          ((serviceDeltaHandler vmap oracle services d).2.2.isSome = true ∧
           (serviceDeltaHandler vmap oracle services d).1 = services)) ∧
       (oracle.addOk d.object netid = true →
          ((serviceDeltaHandler vmap oracle services d).2.2 = none ∧
           (serviceDeltaHandler vmap oracle services d).1 =
             Function.update services d.object.UID (some d.object)))) := by
  obtain ⟨t, obj⟩ := d
  dsimp only at hT hIP hdup ⊢
  cases t
  case Deleted => exact absurd rfl hT
  all_goals
    constructor
  all_goals try (
    intro h
    have hw := WaitAndGetVNID_of_none h
    rcases hsv : services obj.UID with _ | oldsvc
    · constructor <;> simp [serviceDeltaHandler, hIP, hsv, hw]
    · have hch := hdup oldsvc hsv
      constructor <;> simp [serviceDeltaHandler, hIP, hsv, hw, hch])
  all_goals (
    intro netid h
    have hw := WaitAndGetVNID_of_some h
    constructor <;> intro hadd <;> rcases hsv : services obj.UID with _ | oldsvc
    · constructor <;> simp [serviceDeltaHandler, hIP, hsv, hw, hadd]
    · have hch := hdup oldsvc hsv
      constructor <;> simp [serviceDeltaHandler, hIP, hsv, hw, hch, hadd]
    · constructor <;> simp [serviceDeltaHandler, hIP, hsv, hw, hadd]
    · have hch := hdup oldsvc hsv
      constructor <;> simp [serviceDeltaHandler, hIP, hsv, hw, hch, hadd])

/-- Witness for C10: an unresolvable namespace leaves the empty cache
unchanged with an error; a resolvable one with a succeeding
`AddServiceRules` writes the entry with no error. -/
theorem C10_cache_update_only_on_success_witness :
    (serviceDeltaHandler newNodeVNIDMap allOk (fun _ => none)
        ⟨DeltaType.Updated, svcTCP80⟩).2.2.isSome = true ∧
    (serviceDeltaHandler newNodeVNIDMap allOk (fun _ => none)
        ⟨DeltaType.Updated, svcTCP80⟩).1 = (fun _ => none) ∧
    (serviceDeltaHandler svcVmap allOk (fun _ => none)
        ⟨DeltaType.Updated, svcTCP80⟩).2.2 = none ∧
    (serviceDeltaHandler svcVmap allOk (fun _ => none)
        ⟨DeltaType.Updated, svcTCP80⟩).1 =
      Function.update (fun _ => none) "u1" (some svcTCP80) := by
  have hT : (Delta.mk DeltaType.Updated svcTCP80).type ≠ DeltaType.Deleted := by simp
  have hIP : (Delta.mk DeltaType.Updated svcTCP80).object.ipSet = true := rfl
  have hdup : ∀ oldsvc,
      (fun _ => none : String → Option Service)
        (Delta.mk DeltaType.Updated svcTCP80).object.UID = some oldsvc →
      isServiceChanged oldsvc (Delta.mk DeltaType.Updated svcTCP80).object = true := by
    intro _ hx
    cases hx
  have hvm : svcVmap.ids (Delta.mk DeltaType.Updated svcTCP80).object.ns = some 4 := by
    simp [svcVmap, setVNID, newNodeVNIDMap, addNamespaceToSet, Function.update, svcTCP80]
  have m1 := (C10_cache_update_only_on_success newNodeVNIDMap allOk (fun _ => none)
    (Delta.mk DeltaType.Updated svcTCP80) hT hIP hdup).1 rfl
  have m2 := ((C10_cache_update_only_on_success svcVmap allOk (fun _ => none)
    (Delta.mk DeltaType.Updated svcTCP80) hT hIP hdup).2 4 hvm).2 rfl
  exact ⟨m1.1, m1.2, m2.1, m2.2⟩

end Ksdn
